import Mathlib

/-!
Verification development for the clinical-genomics rubric evaluators in
`domains/clinical_genomics/evaluators/functions.py`.

The three evaluators (`validate_variant_classification`,
`validate_treatment_recommendation`, `validate_clinical_trial_match`) are
shallowly embedded below.  Python floats are modelled by exact fractions
(`Frac`, an unnormalized `Int`/`Nat` pair), Python/JSON values by the
inductive `JValue`, Python dicts by association lists in insertion order,
and the fallible parts (JSON parsing, attribute errors, `len` type errors)
by `Except`.  Python standard-library behaviour that the evaluators rely
on (`json.loads`, `str.lower`, `float(...)`, `str(...)` representations,
truthiness, f-string formatting) is modelled on the value domain below;
binary floating-point rounding is modelled by exact rational arithmetic.
-/

/-! ## Exact fractions modelling Python numbers -/

/-- An exact fraction with non-negative, positive-by-construction
denominator.  Kept unnormalized so that all arithmetic is
kernel-computable; a fraction with `den = 1` renders like a Python `int`,
any other denominator like a Python `float`. -/
structure Frac where
  num : Int
  den : Nat
deriving DecidableEq, Repr

def fzero : Frac := ⟨0, 1⟩

def fracOfNat (n : Nat) : Frac := ⟨n, 1⟩

def fracOfInt (n : Int) : Frac := ⟨n, 1⟩

def fadd (a b : Frac) : Frac := ⟨a.num * b.den + b.num * a.den, a.den * b.den⟩

def fmul (a b : Frac) : Frac := ⟨a.num * b.num, a.den * b.den⟩

def fneg (a : Frac) : Frac := ⟨-a.num, a.den⟩

def finv (a : Frac) : Frac :=
  if a.num ≥ 0 then ⟨a.den, a.num.toNat⟩ else ⟨-(a.den : Int), (-a.num).toNat⟩

def fdiv (a b : Frac) : Frac := fmul a (finv b)

/-- Value-level order on fractions (cross multiplication). -/
def Frac.Le (a b : Frac) : Prop := a.num * (b.den : Int) ≤ b.num * (a.den : Int)

instance (a b : Frac) : Decidable (Frac.Le a b) := by unfold Frac.Le; infer_instance

def fle (a b : Frac) : Bool := decide (Frac.Le a b)

/-- Value-level equality on fractions (cross multiplication). -/
def Frac.Eq (a b : Frac) : Prop := a.num * (b.den : Int) = b.num * (a.den : Int)

instance (a b : Frac) : Decidable (Frac.Eq a b) := by unfold Frac.Eq; infer_instance

/-! ## String helpers modelling Python string operations -/

def chQuote : Char := Char.ofNat 34

def chOpenBrace : Char := Char.ofNat 123

def chCloseBrace : Char := Char.ofNat 125

def chBackslash : Char := Char.ofNat 92

def charLower (c : Char) : Char :=
  if 65 ≤ c.toNat ∧ c.toNat ≤ 90 then Char.ofNat (c.toNat + 32) else c

/-- Python `str.lower()` (ASCII range, which covers the rubric vocabulary). -/
def strLower (s : String) : String := String.mk (s.toList.map charLower)

def wsChar (c : Char) : Bool := c = ' ' || c = '\t' || c = '\n' || c = '\r'

/-- Python `str.strip()`. -/
def strTrim (s : String) : String :=
  String.mk (((s.toList.dropWhile wsChar).reverse.dropWhile wsChar).reverse)

def listIsInfixOf (n : List Char) : List Char → Bool
  | [] => n.isEmpty
  | h :: t => n.isPrefixOf (h :: t) || listIsInfixOf n t

/-- Python `needle in hay` substring membership (empty needle matches). -/
def pyIn (needle hay : String) : Bool := listIsInfixOf needle.toList hay.toList

def joinWith (sep : String) : List String → String
  | [] => ""
  | [s] => s
  | s :: rest => s ++ sep ++ joinWith sep rest

def digitRunAux : List Char → Nat → Nat → Bool
  | [], _, _ => false
  | c :: cs, run, k =>
    if c.isDigit then decide (k ≤ run + 1) || digitRunAux cs (run + 1) k
    else digitRunAux cs 0 k

/-- Python `re.search(some digits pattern, s)`: does `s` contain a run of at
least `k` consecutive ASCII digits? -/
def hasDigitRun (k : Nat) (s : String) : Bool := digitRunAux s.toList 0 k

/-! ## Number formatting (Python f-string rendering) -/

def natDigitChar (n : Nat) : Char := Char.ofNat (48 + n)

def fracDigits : Nat → Nat → Nat → List Char
  | 0, _, _ => []
  | _, 0, _ => []
  | f + 1, r, d => natDigitChar (r * 10 / d) :: fracDigits f (r * 10 % d) d

/-- Python `f"{x}"` for a float `x`: decimal expansion with a trailing `.0`
for integral values.  The expansion is truncated after 17 fractional
digits (Python floats always have a finite shortest repr of at most that
length; an exact fraction with a longer expansion only arises for inputs
outside the binary-float domain). -/
def fmtFloat (q : Frac) : String :=
  let sign := if q.num < 0 then "-" else ""
  let n := q.num.natAbs
  let d := q.den
  let ip := n / d
  let rem := n % d
  let frac := if rem = 0 then "0" else String.mk (fracDigits 17 rem d)
  sign ++ toString ip ++ "." ++ frac

/-- Python `f"{x}"` for an `int`-valued accumulator. -/
def fmtInt (q : Frac) : String := toString q.num

/-- The Python `score` accumulator starts as `int 0` and becomes a `float`
exactly when a float-weighted criterion's points are added; this renders
it the way an f-string would. -/
def fmtScore (q : Frac) (isFloat : Bool) : String :=
  if isFloat then fmtFloat q else fmtInt q

def roundHalfEven (q : Frac) : Int :=
  let fl := Int.fdiv q.num q.den
  let r2 : Int := 2 * (q.num - fl * q.den)
  if r2 < (q.den : Int) then fl
  else if r2 > (q.den : Int) then fl + 1
  else if fl % 2 = 0 then fl else fl + 1

/-- Python `f"{x:.0f}"`. -/
def fmtPct (q : Frac) : String := toString (roundHalfEven q)

/-! ## Python float values, including the non-finite ones -/

/-- A Python float value: a finite value (exact fraction), positive or
negative infinity, or NaN.  `json.loads` produces the non-finite ones for
the `NaN`/`Infinity`/`-Infinity` constants, and `float(...)` for the
`inf`/`nan` string spellings. -/
inductive PyNum where
  | fin (q : Frac)
  | inf
  | ninf
  | nan
deriving DecidableEq, Repr

/-- Python unary minus on a float (`-nan` is `nan`). -/
def pyNumNeg : PyNum → PyNum
  | .fin q => .fin (fneg q)
  | .inf => .ninf
  | .ninf => .inf
  | .nan => .nan

/-- Python `x >= t` for a float value `x` against a finite float
threshold `t`; every comparison with NaN is false. -/
def pyGe (x : PyNum) (t : Frac) : Bool :=
  match x with
  | .fin q => fle t q
  | .inf => true
  | .ninf => false
  | .nan => false

/-- Python `f"{x}"` for a float value. -/
def fmtPyNum : PyNum → String
  | .fin q => fmtFloat q
  | .inf => "inf"
  | .ninf => "-inf"
  | .nan => "nan"

/-! ## JSON / Python values -/

inductive JValue where
  | str (s : String)
  | num (x : PyNum)
  | bool (b : Bool)
  | null
  | arr (elems : List JValue)
  | obj (fields : List (String × JValue))

abbrev JObj := List (String × JValue)

/-- Python type name of a value (`int`/`float` are told apart the same way
`pyRepr` tells them apart). -/
def pyType : JValue → String
  | .str _ => "str"
  | .num (.fin q) => if q.den = 1 then "int" else "float"
  | .num _ => "float"
  | .bool _ => "bool"
  | .null => "NoneType"
  | .arr _ => "list"
  | .obj _ => "dict"

/-- Python truthiness. -/
def pyTruthy : JValue → Bool
  | .str s => !s.toList.isEmpty
  | .num (.fin q) => q.num ≠ 0
  | .num _ => true
  | .bool b => b
  | .null => false
  | .arr xs => !xs.isEmpty
  | .obj fs => !fs.isEmpty

mutual
/-- Python `repr(...)` of a value (single-quoted strings, `True`/`False`,
`None`, bracketed containers). -/
def pyRepr : JValue → String
  | .str s => "\x27" ++ s ++ "\x27"
  | .num (.fin q) => if q.den = 1 then toString q.num else fmtFloat q
  | .num x => fmtPyNum x
  | .bool b => if b then "True" else "False"
  | .null => "None"
  | .arr xs => "[" ++ joinWith ", " (pyReprList xs) ++ "]"
  | .obj fs => "\x7b" ++ joinWith ", " (pyReprFields fs) ++ "\x7d"
def pyReprList : List JValue → List String
  | [] => []
  | v :: vs => pyRepr v :: pyReprList vs
def pyReprFields : List (String × JValue) → List String
  | [] => []
  | (k, v) :: fs => ("\x27" ++ k ++ "\x27: " ++ pyRepr v) :: pyReprFields fs
end

/-- Python `str(...)`: the string itself for a `str`, `repr` otherwise. -/
def pyStr : JValue → String
  | .str s => s
  | v => pyRepr v

/-- Python `len(...)`: a `TypeError` for unsized values. -/
def pyLenE : JValue → Except String Nat
  | .str s => .ok s.toList.length
  | .arr xs => .ok xs.length
  | .obj fs => .ok fs.length
  | v => .error ("object of type \x27" ++ pyType v ++ "\x27 has no len()")

/-- Python iteration over a sized value (characters of a string, elements
of a list, keys of a dict); only reached after a successful `len`. -/
def pyElems : JValue → List JValue
  | .str s => s.toList.map (fun c => .str (String.mk [c]))
  | .arr xs => xs
  | .obj fs => fs.map (fun kv => .str kv.1)
  | _ => []

/-- Python `x.lower()` on an arbitrary value: an `AttributeError` unless
`x` is a string. -/
def pyLower : JValue → Except String String
  | .str s => .ok (strLower s)
  | v => .error ("\x27" ++ pyType v ++ "\x27 object has no attribute \x27lower\x27")

/-- Longest leading run of ASCII digits and the rest. -/
def takeDigits : List Char → List Char × List Char
  | [] => ([], [])
  | c :: cs =>
    if c.isDigit then
      let p := takeDigits cs
      (c :: p.1, p.2)
    else ([], c :: cs)

def digitsToNat (ds : List Char) : Nat :=
  ds.foldl (fun a c => a * 10 + (c.toNat - 48)) 0

def scaleByExp (m : Frac) (e : Int) : Frac :=
  if e ≥ 0 then ⟨m.num * ((10 : Nat) ^ e.toNat : Nat), m.den⟩
  else ⟨m.num, m.den * (10 : Nat) ^ (-e).toNat⟩

def parseExpTail : List Char → Option Int
  | [] => some 0
  | c :: r =>
    if c = 'e' || c = 'E' then
      match r with
      | '-' :: r2 =>
        let p := takeDigits r2
        if p.1.isEmpty || !p.2.isEmpty then none else some (-(digitsToNat p.1 : Int))
      | '+' :: r2 =>
        let p := takeDigits r2
        if p.1.isEmpty || !p.2.isEmpty then none else some (digitsToNat p.1)
      | _ =>
        let p := takeDigits r
        if p.1.isEmpty || !p.2.isEmpty then none else some (digitsToNat p.1)
    else none

def parseFloatCore (cs : List Char) : Option Frac :=
  let pI := takeDigits cs
  let hasDot := pI.2.head? == some '.'
  let pF := if hasDot then takeDigits pI.2.tail else ([], pI.2)
  if pI.1.isEmpty && pF.1.isEmpty then none
  else
    match parseExpTail pF.2 with
    | none => none
    | some e =>
      let mantissa : Frac :=
        ⟨(digitsToNat pI.1 : Int) * ((10 : Nat) ^ pF.1.length : Nat) + (digitsToNat pF.1 : Int),
         (10 : Nat) ^ pF.1.length⟩
      some (scaleByExp mantissa e)

/-- Python numeric literals may contain underscores, but only directly
between two digits; this validates the placement and removes them. -/
def deUnderscore (prev : Option Char) : List Char → Option (List Char)
  | [] => some []
  | c :: cs =>
    if c = '_' then
      match prev, cs with
      | some p, n :: _ =>
        if p.isDigit && n.isDigit then deUnderscore (some c) cs else none
      | _, _ => none
    else (deUnderscore (some c) cs).map (c :: ·)

/-- The unsigned part of `float(...)` on a string: the case-insensitive
`inf`/`infinity`/`nan` spellings, or a decimal numeral with optional
point, exponent and well-placed underscores. -/
def pyFloatCore (cs : List Char) : Option PyNum :=
  let lower := cs.map charLower
  if lower = "inf".toList || lower = "infinity".toList then some .inf
  else if lower = "nan".toList then some .nan
  else
    match deUnderscore none cs with
    | none => none
    | some cs2 => (parseFloatCore cs2).map .fin

def pyFloatOfString (s : String) : Option PyNum :=
  match (strTrim s).toList with
  | '-' :: r => (pyFloatCore r).map pyNumNeg
  | '+' :: r => pyFloatCore r
  | cs => pyFloatCore cs

/-- Python `float(x)`: floats pass through, booleans become 0/1, strings
are parsed (including `inf`/`nan` and underscored numerals); everything
else is a `ValueError`/`TypeError` (returned as `none`). -/
def pyFloatOpt : JValue → Option PyNum
  | .num x => some x
  | .bool b => some (.fin (if b then ⟨1, 1⟩ else ⟨0, 1⟩))
  | .str s => pyFloatOfString s
  | _ => none

/-- Python `dict.get(key, default)` (dict keys are unique by construction
of the parser, which overwrites like a Python dict insert). -/
def jGet (fields : JObj) (k : String) (d : JValue) : JValue :=
  match fields.find? (fun p => p.1 == k) with
  | some p => p.2
  | none => d

def hasKey (fields : JObj) (k : String) : Bool := fields.any (fun p => p.1 == k)

def objInsert (fs : JObj) (k : String) (v : JValue) : JObj :=
  if hasKey fs k then fs.map (fun p => if p.1 == k then (k, v) else p)
  else fs ++ [(k, v)]

/-! ## Strict JSON parsing, modelling Python `json.loads` (error strings
abbreviated without line/column positions) -/

def skipWs : List Char → List Char
  | [] => []
  | c :: cs => if wsChar c then skipWs cs else c :: cs

def hexVal : Char → Option Nat
  | c =>
    if c.isDigit then some (c.toNat - 48)
    else if 'a' ≤ c ∧ c ≤ 'f' then some (c.toNat - 87)
    else if 'A' ≤ c ∧ c ≤ 'F' then some (c.toNat - 55)
    else none

def jParseStringAux : Nat → List Char → List Char → Except String (String × List Char)
  | 0, _, _ => .error "Unterminated string starting at"
  | fuel + 1, acc, cs =>
    match cs with
    | [] => .error "Unterminated string starting at"
    | c :: rest =>
      if c = chQuote then .ok (String.mk acc.reverse, rest)
      else if c = chBackslash then
        match rest with
        | [] => .error "Unterminated string starting at"
        | e :: r2 =>
          if e = chQuote then jParseStringAux fuel (chQuote :: acc) r2
          else if e = chBackslash then jParseStringAux fuel (chBackslash :: acc) r2
          else if e = '/' then jParseStringAux fuel ('/' :: acc) r2
          else if e = 'n' then jParseStringAux fuel ('\n' :: acc) r2
          else if e = 't' then jParseStringAux fuel ('\t' :: acc) r2
          else if e = 'r' then jParseStringAux fuel ('\r' :: acc) r2
          else if e = 'b' then jParseStringAux fuel (Char.ofNat 8 :: acc) r2
          else if e = 'f' then jParseStringAux fuel (Char.ofNat 12 :: acc) r2
          else if e = 'u' then
            match r2 with
            | a :: b :: c2 :: d :: r3 =>
              match hexVal a, hexVal b, hexVal c2, hexVal d with
              | some x, some y, some z, some w =>
                jParseStringAux fuel (Char.ofNat (((x * 16 + y) * 16 + z) * 16 + w) :: acc) r3
              | _, _, _, _ => .error "Invalid \\uXXXX escape"
            | _ => .error "Invalid \\uXXXX escape"
          else .error "Invalid \\escape"
      else if c.toNat < 32 then .error "Invalid control character"
      else jParseStringAux fuel (c :: acc) rest

def jParseFrac : List Char → Except String (List Char × List Char)
  | '.' :: r =>
    let p := takeDigits r
    if p.1.isEmpty then .error "Expecting digit after decimal point" else .ok p
  | cs => .ok ([], cs)

def jParseExpPart : List Char → Except String (Int × List Char)
  | [] => .ok (0, [])
  | c :: r =>
    if c = 'e' || c = 'E' then
      match r with
      | '-' :: r2 =>
        let p := takeDigits r2
        if p.1.isEmpty then .error "Expecting digit in exponent"
        else .ok (-(digitsToNat p.1 : Int), p.2)
      | '+' :: r2 =>
        let p := takeDigits r2
        if p.1.isEmpty then .error "Expecting digit in exponent"
        else .ok ((digitsToNat p.1 : Int), p.2)
      | _ =>
        let p := takeDigits r
        if p.1.isEmpty then .error "Expecting digit in exponent"
        else .ok ((digitsToNat p.1 : Int), p.2)
    else .ok (0, c :: r)

def jParseNumber (cs : List Char) : Except String (Frac × List Char) :=
  let sp := match cs with
    | '-' :: r => (true, r)
    | _ => (false, cs)
  let pI := match sp.2 with
    | '0' :: r => (['0'], r)
    | _ => takeDigits sp.2
  if pI.1.isEmpty then .error "Expecting value"
  else
    match jParseFrac pI.2 with
    | .error e => .error e
    | .ok (fds, cs3) =>
      match jParseExpPart cs3 with
      | .error e => .error e
      | .ok (e, cs4) =>
        let mantissa : Frac :=
          ⟨(digitsToNat pI.1 : Int) * ((10 : Nat) ^ fds.length : Nat) + (digitsToNat fds : Int),
           (10 : Nat) ^ fds.length⟩
        let q := scaleByExp mantissa e
        .ok (if sp.1 then fneg q else q, cs4)

mutual
def jVal (fuel : Nat) (cs : List Char) : Except String (JValue × List Char) :=
  match fuel with
  | 0 => .error "Too deeply nested"
  | f + 1 =>
    match skipWs cs with
    | [] => .error "Expecting value"
    | c :: rest =>
      if c = chOpenBrace then
        match skipWs rest with
        | c2 :: r2 =>
          if c2 = chCloseBrace then .ok (.obj [], r2) else jObjRest f [] (c2 :: r2)
        | [] => .error "Expecting property name enclosed in double quotes"
      else if c = '[' then
        match skipWs rest with
        | c2 :: r2 =>
          if c2 = ']' then .ok (.arr [], r2) else jArrRest f [] (c2 :: r2)
        | [] => .error "Expecting value"
      else if c = chQuote then
        match jParseStringAux (rest.length + 1) [] rest with
        | .error e => .error e
        | .ok (s, r) => .ok (.str s, r)
      else if c = 't' then
        match rest with
        | 'r' :: 'u' :: 'e' :: r => .ok (.bool true, r)
        | _ => .error "Expecting value"
      else if c = 'f' then
        match rest with
        | 'a' :: 'l' :: 's' :: 'e' :: r => .ok (.bool false, r)
        | _ => .error "Expecting value"
      else if c = 'n' then
        match rest with
        | 'u' :: 'l' :: 'l' :: r => .ok (.null, r)
        | _ => .error "Expecting value"
      else if c = 'N' then
        match rest with
        | 'a' :: 'N' :: r => .ok (.num .nan, r)
        | _ => .error "Expecting value"
      else if c = 'I' then
        match rest with
        | 'n' :: 'f' :: 'i' :: 'n' :: 'i' :: 't' :: 'y' :: r => .ok (.num .inf, r)
        | _ => .error "Expecting value"
      else if c = '-' then
        match rest with
        | 'I' :: 'n' :: 'f' :: 'i' :: 'n' :: 'i' :: 't' :: 'y' :: r => .ok (.num .ninf, r)
        | _ =>
          match jParseNumber (c :: rest) with
          | .error e => .error e
          | .ok (q, r) => .ok (.num (.fin q), r)
      else if c.isDigit then
        match jParseNumber (c :: rest) with
        | .error e => .error e
        | .ok (q, r) => .ok (.num (.fin q), r)
      else .error "Expecting value"
def jObjRest (fuel : Nat) (acc : JObj) (cs : List Char) : Except String (JValue × List Char) :=
  match fuel with
  | 0 => .error "Too deeply nested"
  | f + 1 =>
    match skipWs cs with
    | c :: rest =>
      if c = chQuote then
        match jParseStringAux (rest.length + 1) [] rest with
        | .error e => .error e
        | .ok (k, r1) =>
          match skipWs r1 with
          | ':' :: r2 =>
            match jVal f r2 with
            | .error e => .error e
            | .ok (v, r3) =>
              let acc2 := objInsert acc k v
              match skipWs r3 with
              | ',' :: r4 => jObjRest f acc2 r4
              | c2 :: r4 =>
                if c2 = chCloseBrace then .ok (.obj acc2, r4)
                else .error "Expecting delimiter"
              | [] => .error "Expecting delimiter"
          | _ => .error "Expecting colon delimiter"
      else .error "Expecting property name enclosed in double quotes"
    | [] => .error "Expecting property name enclosed in double quotes"
def jArrRest (fuel : Nat) (acc : List JValue) (cs : List Char) : Except String (JValue × List Char) :=
  match fuel with
  | 0 => .error "Too deeply nested"
  | f + 1 =>
    match jVal f cs with
    | .error e => .error e
    | .ok (v, r) =>
      match skipWs r with
      | ',' :: r2 => jArrRest f (acc ++ [v]) r2
      | c :: r2 =>
        if c = ']' then .ok (.arr (acc ++ [v]), r2)
        else .error "Expecting delimiter"
      | [] => .error "Expecting delimiter"
end

/-- Python `json.loads` on a string: strict, the whole input must be one
JSON value, integer parts may not have leading zeros, and the
`NaN`/`Infinity`/`-Infinity` constants are accepted as floats. -/
def jsonParse (s : String) : Except String JValue :=
  match jVal (s.toList.length + 1) s.toList with
  | .error e => .error e
  | .ok (v, rest) =>
    match skipWs rest with
    | [] => .ok v
    | _ => .error "Extra data"

/-! ## Response extraction (agent-response wrapper convention) -/

/-- The raw payload an evaluator receives after unwrapping: either a text
string (to be JSON-parsed) or an already-structured value. -/
inductive RawInput where
  | text (s : String)
  | value (v : JValue)

/-- The `llm_response` argument: an object that either exposes a nested
`result` attribute holding the payload, or is itself the payload. -/
inductive LLMResponse where
  | withResult (result : RawInput)
  | bare (raw : RawInput)

/-- `llm_response.result if hasattr(llm_response, "result") else llm_response`. -/
def extract : LLMResponse → RawInput
  | .withResult r => r
  | .bare r => r

/-- The two kinds of exception raised inside an evaluator body:
`json.JSONDecodeError` (a subclass of `ValueError` with its own handler)
and any other exception. -/
inductive PyErr where
  | jsonDecode (msg : String)
  | exc (msg : String)

/-- `data.get(...)` on a non-dict raises `AttributeError`. -/
def noGetMsg (v : JValue) : String :=
  "\x27" ++ pyType v ++ "\x27 object has no attribute \x27get\x27"

/-- The shared extract-and-parse prefix of each evaluator: unwrap the
response, JSON-parse it when textual, and require a mapping. -/
def coerceToObj (resp : LLMResponse) : Except PyErr JObj :=
  match extract resp with
  | .text s =>
    match jsonParse s with
    | .error e => .error (.jsonDecode e)
    | .ok (.obj fs) => .ok fs
    | .ok v => .error (.exc (noGetMsg v))
  | .value (.obj fs) => .ok fs
  | .value v => .error (.exc (noGetMsg v))

/-- A criterion outcome: points awarded, whether those points were a
Python `float` (so the accumulator becomes a float), and the issue
strings appended (empty or a singleton). -/
abbrev Crit := Frac × Bool × List String

/-- The shared criterion shape `if cond: score += w else:
issues.append(msg)`; `isF` records whether `w` is a Python float. -/
def critOf (cond : Bool) (w : Frac) (isF : Bool) (msg : String) : Crit :=
  if cond then (w, isF, []) else (fzero, false, [msg])

/-- The shared verdict construction: threshold test and message, as at the
end of each evaluator (`passed = score/max >= thr`, `"Score: ..."` plus a
semicolon-joined issue list when non-empty). -/
def mkVerdict (score : Frac) (isF : Bool) (maxScore : Nat) (thr : Frac)
    (issues : List String) : Bool × String :=
  let passed := fle thr (fdiv score (fracOfNat maxScore))
  let line := "Score: " ++ fmtScore score isF ++ "/" ++ toString maxScore ++
    " (" ++ fmtPct (fmul (fdiv score (fracOfNat maxScore)) (fracOfNat 100)) ++ "%)"
  let msg := if issues.isEmpty then line else line ++ "\nIssues: " ++ joinWith "; " issues
  (passed, msg)

/-! ## Variant classification evaluator (`validate_variant_classification`) -/

/-- Criterion 1 (1.0 pt): pathogenicity tier, case-insensitive substring
match in either direction; `.lower()` on a non-string field raises. -/
def variantTier (data : JObj) (expected_tier : String) : Except String Crit :=
  match pyLower (jGet data "pathogenicity" (.str "")) with
  | .error e => .error e
  | .ok pathogenicity =>
    let expected_lower := strLower expected_tier
    .ok (critOf (pyIn expected_lower pathogenicity || pyIn pathogenicity expected_lower)
      ⟨1, 1⟩ false
      ("Pathogenicity: expected \x27" ++ expected_tier ++ "\x27, got \x27" ++
        pyStr (jGet data "pathogenicity" .null) ++ "\x27"))

/-- Criterion 2 (1.5 pt): at least 60 percent of the expected evidence
codes appear as substrings of reported codes. -/
def variantCodes (data : JObj) (expected_codes : List String) : Crit :=
  let ec := jGet data "evidence_codes" (.arr [])
  let evidence_codes := match ec with
    | .arr xs => xs
    | _ => []
  let matched :=
    (expected_codes.filter (fun code => evidence_codes.any (fun e => pyIn code (pyStr e)))).length
  critOf (fle (fmul (fracOfNat expected_codes.length) ⟨3, 5⟩) (fracOfNat matched))
    ⟨3, 2⟩ true
    ("Evidence codes: expected " ++ pyRepr (.arr (expected_codes.map .str)) ++ ", got " ++
      pyRepr (.arr evidence_codes) ++ " (only " ++ toString matched ++ "/" ++
      toString expected_codes.length ++ " matched)")

/-- Criterion 3 (1.0 pt): `float(confidence)` must reach the threshold; a
failed conversion is caught locally and becomes an issue. -/
def variantConfidence (data : JObj) (min_confidence : Frac) : Crit :=
  let confidence := jGet data "confidence" (.num (.fin ⟨0, 1⟩))
  match pyFloatOpt confidence with
  | some confidence_val =>
    critOf (pyGe confidence_val min_confidence) ⟨1, 1⟩ false
      ("Confidence too low: " ++ fmtPyNum confidence_val ++ " < " ++ fmtFloat min_confidence)
  | none => (fzero, false, ["Invalid confidence value: " ++ pyStr confidence])

/-- Criterion 4 (0.75 pt): clinical recommendation present and longer than
20 characters after stripping. -/
def variantClinicalRec (data : JObj) : Crit :=
  let clinical_rec := jGet data "clinical_recommendation" (.str "")
  critOf (pyTruthy clinical_rec && decide ((strTrim (pyStr clinical_rec)).toList.length > 20))
    ⟨3, 4⟩ true "Clinical recommendation missing or too brief"

/-- Criterion 5 (0.75 pt): when references are mandatory, some reference
must look like a ClinVar/PubMed identifier or contain a six-digit run;
`len` on an unsized truthy value raises. -/
def variantReferences (data : JObj) (must_have_reference : Bool) : Except String Crit :=
  if must_have_reference then
    let references := jGet data "references" (.arr [])
    if pyTruthy references then
      match pyLenE references with
      | .error e => .error e
      | .ok n =>
        if n > 0 then
          let has_valid_ref := (pyElems references).any (fun ref =>
            pyIn "clinvar" (strLower (pyStr ref)) || pyIn "pmid" (strLower (pyStr ref)) ||
            hasDigitRun 6 (pyStr ref))
          .ok (critOf has_valid_ref ⟨3, 4⟩ true "No valid ClinVar/PubMed references found")
        else .ok (fzero, false, ["References missing"])
    else .ok (fzero, false, ["References missing"])
  else .ok (⟨3, 4⟩, true, [])

/-- The scoring body of `validate_variant_classification` on a coerced
mapping: criteria in source order, score and issue accumulation. -/
def scoreVariant (data : JObj) (expected_tier : String) (expected_codes : List String)
    (min_confidence : Frac) (must_have_reference : Bool) : Except String Crit :=
  match variantTier data expected_tier with
  | .error e => .error e
  | .ok c1 =>
    match variantReferences data must_have_reference with
    | .error e => .error e
    | .ok c5 =>
      .ok (fadd (fadd (fadd (fadd c1.1 (variantCodes data expected_codes).1)
            (variantConfidence data min_confidence).1) (variantClinicalRec data).1) c5.1,
        c1.2.1 || (variantCodes data expected_codes).2.1 ||
          (variantConfidence data min_confidence).2.1 || (variantClinicalRec data).2.1 || c5.2.1,
        c1.2.2 ++ (variantCodes data expected_codes).2.2 ++
          (variantConfidence data min_confidence).2.2 ++ (variantClinicalRec data).2.2 ++ c5.2.2)

def variantPipeline (resp : LLMResponse) (expected_tier : String)
    (expected_codes : List String) (min_confidence : Frac) (must_have_reference : Bool) :
    Except PyErr (Bool × String) :=
  match coerceToObj resp with
  | .error e => .error e
  | .ok data =>
    match scoreVariant data expected_tier expected_codes min_confidence must_have_reference with
    | .error m => .error (.exc m)
    | .ok r => .ok (mkVerdict r.1 r.2.1 5 ⟨4, 5⟩ r.2.2)

/-- `validate_variant_classification`: the full evaluator including both
`except` handlers. -/
def validate_variant_classification (llm_response : LLMResponse) (question : String)
    (expected_tier : String) (expected_codes : List String) (min_confidence : Frac)
    (must_have_reference : Bool) : Bool × String :=
  match variantPipeline llm_response expected_tier expected_codes min_confidence
      must_have_reference with
  | .ok v => v
  | .error (.jsonDecode m) => (false, "Invalid JSON response: " ++ m)
  | .error (.exc m) => (false, "Evaluation error: " ++ m)

/-! ## Treatment recommendation evaluator (`validate_treatment_recommendation`) -/

/-- Criterion 1 (1.6 pt): at least 70 percent of expected therapies are
mentioned (case-insensitive substring); a non-list reported value is
wrapped as a singleton when truthy. -/
def treatTherapies (data : JObj) (expected_therapies : List String) : Crit :=
  let recommendedRaw := jGet data "recommended_therapies" (.arr [])
  let recommended := match recommendedRaw with
    | .arr xs => xs
    | v => if pyTruthy v then [v] else []
  let matched :=
    (expected_therapies.filter
      (fun ex => recommended.any (fun r => pyIn (strLower ex) (strLower (pyStr r))))).length
  critOf (fle (fmul (fracOfNat expected_therapies.length) ⟨7, 10⟩) (fracOfNat matched))
    ⟨8, 5⟩ true
    ("Therapies: expected " ++ pyRepr (.arr (expected_therapies.map .str)) ++ ", got " ++
      pyRepr (.arr recommended))

def valid_levels : List String :=
  ["fda", "nccn", "clinical trial", "level 1", "level 2", "level a", "level b"]

/-- Criterion 2 (1.2 pt, conditional): evidence level must contain one of
a fixed vocabulary; automatic credit when not required. -/
def treatEvidence (data : JObj) (must_include_evidence : Bool) : Crit :=
  if must_include_evidence then
    let evidence := jGet data "evidence_level" (.str "")
    critOf (valid_levels.any (fun level => pyIn level (strLower (pyStr evidence))))
      ⟨6, 5⟩ true ("Evidence level missing or invalid: " ++ pyStr evidence)
  else (⟨6, 5⟩, true, [])

/-- Criterion 3 (0.6 pt, conditional): non-empty contraindications; `len`
on an unsized truthy value raises. -/
def treatContra (data : JObj) (check_contraindications : Bool) : Except String Crit :=
  if check_contraindications then
    let contraind := jGet data "contraindications" (.arr [])
    if pyTruthy contraind then
      match pyLenE contraind with
      | .error e => .error e
      | .ok n =>
        .ok (critOf (decide (n > 0)) ⟨3, 5⟩ true "Contraindications not addressed")
    else .ok (fzero, false, ["Contraindications not addressed"])
  else .ok (⟨3, 5⟩, true, [])

/-- Criterion 4 (0.6 pt): `dosing` or `dosing_considerations` present and
longer than 10 characters after stripping. -/
def treatDosing (data : JObj) : Crit :=
  let d1 := jGet data "dosing" (.str "")
  let dosing := if pyTruthy d1 then d1 else jGet data "dosing_considerations" (.str "")
  critOf (pyTruthy dosing && decide ((strTrim (pyStr dosing)).toList.length > 10))
    ⟨3, 5⟩ true "Dosing considerations missing or incomplete"

/-- The scoring body of `validate_treatment_recommendation` on a coerced
mapping. -/
def scoreTreatment (data : JObj) (expected_therapies : List String)
    (must_include_evidence : Bool) (check_contraindications : Bool) : Except String Crit :=
  match treatContra data check_contraindications with
  | .error e => .error e
  | .ok c3 =>
    .ok (fadd (fadd (fadd (treatTherapies data expected_therapies).1
          (treatEvidence data must_include_evidence).1) c3.1) (treatDosing data).1,
      (treatTherapies data expected_therapies).2.1 ||
        (treatEvidence data must_include_evidence).2.1 || c3.2.1 || (treatDosing data).2.1,
      (treatTherapies data expected_therapies).2.2 ++
        (treatEvidence data must_include_evidence).2.2 ++ c3.2.2 ++ (treatDosing data).2.2)

def treatmentPipeline (resp : LLMResponse) (expected_therapies : List String)
    (must_include_evidence : Bool) (check_contraindications : Bool) :
    Except PyErr (Bool × String) :=
  match coerceToObj resp with
  | .error e => .error e
  | .ok data =>
    match scoreTreatment data expected_therapies must_include_evidence
        check_contraindications with
    | .error m => .error (.exc m)
    | .ok r => .ok (mkVerdict r.1 r.2.1 4 ⟨3, 4⟩ r.2.2)

/-- `validate_treatment_recommendation`: the full evaluator including both
`except` handlers. -/
def validate_treatment_recommendation (llm_response : LLMResponse) (question : String)
    (expected_therapies : List String) (must_include_evidence : Bool)
    (check_contraindications : Bool) : Bool × String :=
  match treatmentPipeline llm_response expected_therapies must_include_evidence
      check_contraindications with
  | .ok v => v
  | .error (.jsonDecode m) => (false, "Invalid JSON response: " ++ m)
  | .error (.exc m) => (false, "Evaluation error: " ++ m)

/-! ## Clinical trial match evaluator (`validate_clinical_trial_match`) -/

/-- `data.get("trials", data.get("matched_trials", []))`, coerced to a
list. -/
def trialsOf (data : JObj) : List JValue :=
  match jGet data "trials" (jGet data "matched_trials" (.arr [])) with
  | .arr xs => xs
  | _ => []

/-- Criterion 1 (1.2 pt): at least `min_trials` reported trials. -/
def trialCount (data : JObj) (min_trials : Int) : Crit :=
  let trials := trialsOf data
  critOf (decide ((trials.length : Int) ≥ min_trials)) ⟨6, 5⟩ true
    ("Expected at least " ++ toString min_trials ++ " trials, found " ++
      toString trials.length)

/-- A trial dict is complete when its textual form mentions `nct` or it has
a `trial_id` key, it has a `phase` key, and a `title` or `name` key. -/
def isCompleteTrial (trial : JValue) : Bool :=
  match trial with
  | .obj fs =>
    (pyIn "nct" (strLower (pyStr (.obj fs))) || hasKey fs "trial_id") &&
    hasKey fs "phase" && (hasKey fs "title" || hasKey fs "name")
  | _ => false

/-- Criterion 2 (1.6 pt): the number of complete trial entries must reach
`0.7 * min_trials` (the minimum parameter, not the reported count). -/
def trialCompleteness (data : JObj) (min_trials : Int) : Crit :=
  let trials := trialsOf data
  let complete_trials := (trials.filter isCompleteTrial).length
  critOf (fle (fmul (fracOfInt min_trials) ⟨7, 10⟩) (fracOfNat complete_trials))
    ⟨8, 5⟩ true
    ("Only " ++ toString complete_trials ++ "/" ++ toString trials.length ++
      " trials have complete information")

/-- Criterion 3 (0.8 pt, conditional): some trial's textual form mentions
eligibility; automatic credit when not required. -/
def trialEligibility (data : JObj) (must_check_eligibility : Bool) : Crit :=
  if must_check_eligibility then
    let trials := trialsOf data
    critOf (trials.any (fun t =>
        pyIn "eligibility" (strLower (pyStr t)) || pyIn "eligible" (strLower (pyStr t))))
      ⟨4, 5⟩ true "Eligibility criteria not assessed"
  else (⟨4, 5⟩, true, [])

/-- Criterion 4 (0.4 pt): some trial's textual form mentions a location. -/
def trialLocation (data : JObj) : Crit :=
  let trials := trialsOf data
  critOf (trials.any (fun t =>
      pyIn "location" (strLower (pyStr t)) || pyIn "site" (strLower (pyStr t)) ||
      pyIn "country" (strLower (pyStr t))))
    ⟨2, 5⟩ true "Location information missing"

/-- The scoring body of `validate_clinical_trial_match` on a coerced
mapping (total: no operation in it can raise). -/
def scoreTrial (data : JObj) (min_trials : Int) (must_check_eligibility : Bool) : Crit :=
  let c1 := trialCount data min_trials
  let c2 := trialCompleteness data min_trials
  let c3 := trialEligibility data must_check_eligibility
  let c4 := trialLocation data
  (fadd (fadd (fadd c1.1 c2.1) c3.1) c4.1,
    c1.2.1 || c2.2.1 || c3.2.1 || c4.2.1,
    c1.2.2 ++ c2.2.2 ++ c3.2.2 ++ c4.2.2)

def trialPipeline (resp : LLMResponse) (min_trials : Int) (must_check_eligibility : Bool) :
    Except PyErr (Bool × String) :=
  match coerceToObj resp with
  | .error e => .error e
  | .ok data =>
    let r := scoreTrial data min_trials must_check_eligibility
    .ok (mkVerdict r.1 r.2.1 4 ⟨3, 4⟩ r.2.2)

/-- `validate_clinical_trial_match`: the full evaluator including both
`except` handlers. -/
def validate_clinical_trial_match (llm_response : LLMResponse) (question : String)
    (min_trials : Int) (must_check_eligibility : Bool) : Bool × String :=
  match trialPipeline llm_response min_trials must_check_eligibility with
  | .ok v => v
  | .error (.jsonDecode m) => (false, "Invalid JSON response: " ++ m)
  | .error (.exc m) => (false, "Evaluation error: " ++ m)

/-! ## Concrete sample payloads used in witnesses -/

/-- The spec's variant-classification example response, with
`"confidence": 0.5`. -/
def sampleVariantData : JObj :=
  [("pathogenicity", .str "Likely Pathogenic"),
   ("evidence_codes", .arr [.str "PS1", .str "PM2", .str "PP3"]),
   ("confidence", .num (.fin ⟨5, 10⟩)),
   ("clinical_recommendation", .str "Recommend confirmatory testing and genetic counseling."),
   ("references", .arr [.str "PMID:12345678"])]

/-- The spec's treatment-recommendation example response. -/
def sampleTreatData : JObj :=
  [("recommended_therapies", .arr [.str "Osimertinib"]),
   ("evidence_level", .str "FDA approved"),
   ("contraindications", .arr [.str "severe hepatic impairment"]),
   ("dosing", .str "80mg once daily")]

/-- The spec's clinical-trial example response with a single complete
trial. -/
def sampleTrialData : JObj :=
  [("trials", .arr [.obj [("nct", .str "NCT001"), ("phase", .str "2"),
    ("title", .str "Study A"), ("eligibility", .str "yes"), ("location", .str "Boston")]])]

/-! ## Helper lemmas -/

theorem listIsInfixOf_nil (l : List Char) : listIsInfixOf [] l = true := by
  cases l <;> simp [listIsInfixOf, List.isPrefixOf, List.isEmpty]

theorem pyIn_empty (s : String) : pyIn "" s = true := listIsInfixOf_nil s.toList

theorem critOf_cases (cond : Bool) (w : Frac) (isF : Bool) (msg : String) :
    critOf cond w isF msg = (w, isF, []) ∨ critOf cond w isF msg = (fzero, false, [msg]) := by
  cases cond
  · right; rfl
  · left; rfl

theorem critOf_fst_eq_iff (cond : Bool) (w : Frac) (isF : Bool) (msg : String)
    (hw : ¬ w = fzero) : (critOf cond w isF msg).1 = w ↔ cond = true := by
  cases cond
  · simpa [critOf] using fun h => hw h.symm
  · simp [critOf]

theorem variantTier_shape (d : JObj) (t : String) (c : Crit)
    (h : variantTier d t = .ok c) :
    c = (⟨1, 1⟩, false, []) ∨ ∃ m, c = (fzero, false, [m]) := by
  unfold variantTier at h
  split at h
  · exact absurd h (by simp)
  · injection h with h2
    subst h2
    exact (critOf_cases ..).imp id (fun h => ⟨_, h⟩)

theorem variantCodes_shape (d : JObj) (ec : List String) :
    variantCodes d ec = (⟨3, 2⟩, true, []) ∨ ∃ m, variantCodes d ec = (fzero, false, [m]) :=
  (critOf_cases ..).imp id (fun h => ⟨_, h⟩)

theorem variantConfidence_shape (d : JObj) (mc : Frac) :
    variantConfidence d mc = (⟨1, 1⟩, false, []) ∨
      ∃ m, variantConfidence d mc = (fzero, false, [m]) := by
  unfold variantConfidence
  dsimp only
  split
  · exact (critOf_cases ..).imp id (fun h => ⟨_, h⟩)
  · exact Or.inr ⟨_, rfl⟩

theorem variantClinicalRec_shape (d : JObj) :
    variantClinicalRec d = (⟨3, 4⟩, true, []) ∨
      ∃ m, variantClinicalRec d = (fzero, false, [m]) :=
  (critOf_cases ..).imp id (fun h => ⟨_, h⟩)

theorem variantReferences_shape (d : JObj) (mr : Bool) (c : Crit)
    (h : variantReferences d mr = .ok c) :
    c = (⟨3, 4⟩, true, []) ∨ ∃ m, c = (fzero, false, [m]) := by
  unfold variantReferences at h
  dsimp only at h
  split at h
  · split at h
    · split at h
      · exact absurd h (by simp)
      · split at h
        · injection h with h2
          subst h2
          exact (critOf_cases ..).imp id (fun h => ⟨_, h⟩)
        · injection h with h2
          exact Or.inr ⟨_, h2.symm⟩
    · injection h with h2
      exact Or.inr ⟨_, h2.symm⟩
  · injection h with h2
    exact Or.inl h2.symm

theorem treatTherapies_shape (d : JObj) (ets : List String) :
    treatTherapies d ets = (⟨8, 5⟩, true, []) ∨
      ∃ m, treatTherapies d ets = (fzero, false, [m]) :=
  (critOf_cases ..).imp id (fun h => ⟨_, h⟩)

theorem treatEvidence_shape (d : JObj) (mie : Bool) :
    treatEvidence d mie = (⟨6, 5⟩, true, []) ∨
      ∃ m, treatEvidence d mie = (fzero, false, [m]) := by
  unfold treatEvidence
  dsimp only
  split
  · exact (critOf_cases ..).imp id (fun h => ⟨_, h⟩)
  · exact Or.inl rfl

theorem treatContra_shape (d : JObj) (cc : Bool) (c : Crit)
    (h : treatContra d cc = .ok c) :
    c = (⟨3, 5⟩, true, []) ∨ ∃ m, c = (fzero, false, [m]) := by
  unfold treatContra at h
  dsimp only at h
  split at h
  · split at h
    · split at h
      · exact absurd h (by simp)
      · injection h with h2
        subst h2
        exact (critOf_cases ..).imp id (fun h => ⟨_, h⟩)
    · injection h with h2
      exact Or.inr ⟨_, h2.symm⟩
  · injection h with h2
    exact Or.inl h2.symm

theorem treatDosing_shape (d : JObj) :
    treatDosing d = (⟨3, 5⟩, true, []) ∨ ∃ m, treatDosing d = (fzero, false, [m]) :=
  (critOf_cases ..).imp id (fun h => ⟨_, h⟩)

theorem trialCount_shape (d : JObj) (mt : Int) :
    trialCount d mt = (⟨6, 5⟩, true, []) ∨ ∃ m, trialCount d mt = (fzero, false, [m]) :=
  (critOf_cases ..).imp id (fun h => ⟨_, h⟩)

theorem trialCompleteness_shape (d : JObj) (mt : Int) :
    trialCompleteness d mt = (⟨8, 5⟩, true, []) ∨
      ∃ m, trialCompleteness d mt = (fzero, false, [m]) :=
  (critOf_cases ..).imp id (fun h => ⟨_, h⟩)

theorem trialEligibility_shape (d : JObj) (me : Bool) :
    trialEligibility d me = (⟨4, 5⟩, true, []) ∨
      ∃ m, trialEligibility d me = (fzero, false, [m]) := by
  unfold trialEligibility
  dsimp only
  split
  · exact (critOf_cases ..).imp id (fun h => ⟨_, h⟩)
  · exact Or.inl rfl

theorem trialLocation_shape (d : JObj) :
    trialLocation d = (⟨2, 5⟩, true, []) ∨ ∃ m, trialLocation d = (fzero, false, [m]) :=
  (critOf_cases ..).imp id (fun h => ⟨_, h⟩)

theorem scoreVariant_ok_elim (d : JObj) (t : String) (ec : List String) (mc : Frac)
    (mr : Bool) (r : Crit) (h : scoreVariant d t ec mc mr = .ok r) :
    ∃ c1 c5, variantTier d t = .ok c1 ∧ variantReferences d mr = .ok c5 ∧
      r = (fadd (fadd (fadd (fadd c1.1 (variantCodes d ec).1) (variantConfidence d mc).1)
            (variantClinicalRec d).1) c5.1,
        c1.2.1 || (variantCodes d ec).2.1 || (variantConfidence d mc).2.1 ||
          (variantClinicalRec d).2.1 || c5.2.1,
        c1.2.2 ++ (variantCodes d ec).2.2 ++ (variantConfidence d mc).2.2 ++
          (variantClinicalRec d).2.2 ++ c5.2.2) := by
  unfold scoreVariant at h
  split at h
  · exact absurd h (by simp)
  · rename_i c1 h1
    split at h
    · exact absurd h (by simp)
    · rename_i c5 h5
      injection h with h2
      exact ⟨c1, c5, h1, h5, h2.symm⟩

theorem scoreTreatment_ok_elim (d : JObj) (ets : List String) (mie cc : Bool) (r : Crit)
    (h : scoreTreatment d ets mie cc = .ok r) :
    ∃ c3, treatContra d cc = .ok c3 ∧
      r = (fadd (fadd (fadd (treatTherapies d ets).1 (treatEvidence d mie).1) c3.1)
            (treatDosing d).1,
        (treatTherapies d ets).2.1 || (treatEvidence d mie).2.1 || c3.2.1 ||
          (treatDosing d).2.1,
        (treatTherapies d ets).2.2 ++ (treatEvidence d mie).2.2 ++ c3.2.2 ++
          (treatDosing d).2.2) := by
  unfold scoreTreatment at h
  split at h
  · exact absurd h (by simp)
  · rename_i c3 h3
    injection h with h2
    exact ⟨c3, h3, h2.symm⟩

theorem scoreTrial_eq (d : JObj) (mt : Int) (me : Bool) :
    scoreTrial d mt me =
      (fadd (fadd (fadd (trialCount d mt).1 (trialCompleteness d mt).1)
          (trialEligibility d me).1) (trialLocation d).1,
        (trialCount d mt).2.1 || (trialCompleteness d mt).2.1 ||
          (trialEligibility d me).2.1 || (trialLocation d).2.1,
        (trialCount d mt).2.2 ++ (trialCompleteness d mt).2.2 ++
          (trialEligibility d me).2.2 ++ (trialLocation d).2.2) := rfl

theorem validate_variant_of_ok (resp : LLMResponse) (q t : String) (ec : List String)
    (mc : Frac) (mr : Bool) (data : JObj) (r : Crit)
    (hc : coerceToObj resp = .ok data) (hs : scoreVariant data t ec mc mr = .ok r) :
    validate_variant_classification resp q t ec mc mr =
      mkVerdict r.1 r.2.1 5 ⟨4, 5⟩ r.2.2 := by
  simp [validate_variant_classification, variantPipeline, hc, hs]

theorem validate_treatment_of_ok (resp : LLMResponse) (q : String) (ets : List String)
    (mie cc : Bool) (data : JObj) (r : Crit)
    (hc : coerceToObj resp = .ok data) (hs : scoreTreatment data ets mie cc = .ok r) :
    validate_treatment_recommendation resp q ets mie cc =
      mkVerdict r.1 r.2.1 4 ⟨3, 4⟩ r.2.2 := by
  simp [validate_treatment_recommendation, treatmentPipeline, hc, hs]

theorem validate_trial_of_ok (resp : LLMResponse) (q : String) (mt : Int) (me : Bool)
    (data : JObj) (hc : coerceToObj resp = .ok data) :
    validate_clinical_trial_match resp q mt me =
      mkVerdict (scoreTrial data mt me).1 (scoreTrial data mt me).2.1 4 ⟨3, 4⟩
        (scoreTrial data mt me).2.2 := by
  simp [validate_clinical_trial_match, trialPipeline, hc]

/-! ## Fidelity checks of the standard-library models on the evaluators'
edge inputs: leading-zero numerals, the non-finite JSON constants, and
the `float(...)` string spellings -/

example : jsonParse "\x7b\"a\": 01\x7d" = .error "Expecting delimiter" := rfl

example : jsonParse "01" = .error "Extra data" := rfl

example : jsonParse "0.5" = .ok (.num (.fin ⟨5, 10⟩)) := rfl

example : jsonParse "10" = .ok (.num (.fin ⟨10, 1⟩)) := rfl

example : jsonParse "NaN" = .ok (.num .nan) := rfl

example : jsonParse "Infinity" = .ok (.num .inf) := rfl

example : jsonParse "-Infinity" = .ok (.num .ninf) := rfl

example : jsonParse "-Inf" = .error "Expecting value" := rfl

example : jsonParse "\x7b\"trials\": NaN\x7d" = .ok (.obj [("trials", .num .nan)]) := rfl

set_option maxRecDepth 4000 in
example : validate_clinical_trial_match (.bare (.text "\x7b\"trials\": NaN\x7d")) "q" 3 true =
    (false, "Score: 0/4 (0%)\nIssues: Expected at least 3 trials, found 0; Only 0/0 trials have complete information; Eligibility criteria not assessed; Location information missing") := by
  decide

example : pyFloatOfString "inf" = some .inf := rfl

example : pyFloatOfString " -Infinity " = some .ninf := rfl

example : pyFloatOfString "nan" = some .nan := rfl

example : pyFloatOfString "1_0" = some (.fin ⟨10, 1⟩) := rfl

example : pyFloatOfString "_10" = none := rfl

example : pyFloatOfString "10_" = none := rfl

example : pyFloatOfString "1__0" = none := rfl

example : pyFloatOfString "1_0.5_5" = some (.fin ⟨1055, 100⟩) := rfl

example : variantConfidence [("confidence", .str "inf")] ⟨4, 5⟩ = (⟨1, 1⟩, false, []) := by
  decide

example : variantConfidence [("confidence", .str "1_0")] ⟨4, 5⟩ = (⟨1, 1⟩, false, []) := by
  decide

example : variantConfidence [("confidence", .num .nan)] ⟨4, 5⟩ =
    (fzero, false, ["Confidence too low: nan < 0.8"]) := by decide

/-! ## Claim theorems -/

/-- C1 (counterexample): on the spec's example response with
`"confidence": 0.5`, expected tier `pathogenic`, expected codes
`PS1`, `PM2`, minimum confidence 0.8 and a mandatory reference, the
evaluator returns pass = true — the achieved 4.0/5 is exactly 80 percent
and meets the threshold — refuting the claim that pass = false. -/
theorem C1_counterexample :
    (validate_variant_classification (.bare (.value (.obj sampleVariantData))) "q" "pathogenic"
      ["PS1", "PM2"] ⟨4, 5⟩ true).1 = true := by decide

/-- C1 (amended): on the spec's example response with `"confidence": 0.5`
the evaluator returns pass = true, the achieved score is 4 out of 5
(rendered `4.0/5 (80%)`), and the message lists
`Confidence too low: 0.5 < 0.8` among its issues. -/
theorem C1_amended :
    validate_variant_classification (.bare (.value (.obj sampleVariantData))) "q" "pathogenic"
      ["PS1", "PM2"] ⟨4, 5⟩ true =
      (true, "Score: 4.0/5 (80%)\nIssues: Confidence too low: 0.5 < 0.8") := by decide

/-- C2: for each of the three evaluators, on every response coerced to a
mapping whose scoring completes, the achieved score lies within
[0, max] (max = 5, 4, 4) and the returned pass boolean is true exactly
when achieved/max reaches the evaluator's threshold (0.8, 0.75, 0.75). -/
theorem C2_score_bounds_and_threshold :
    (∀ resp (q t : String) (ec : List String) (mc : Frac) (mr : Bool) (data : JObj) (r : Crit),
      coerceToObj resp = .ok data → scoreVariant data t ec mc mr = .ok r →
      Frac.Le fzero r.1 ∧ Frac.Le r.1 (fracOfNat 5) ∧
      ((validate_variant_classification resp q t ec mc mr).1 = true ↔
        Frac.Le ⟨4, 5⟩ (fdiv r.1 (fracOfNat 5)))) ∧
    (∀ resp (q : String) (ets : List String) (mie cc : Bool) (data : JObj) (r : Crit),
      coerceToObj resp = .ok data → scoreTreatment data ets mie cc = .ok r →
      Frac.Le fzero r.1 ∧ Frac.Le r.1 (fracOfNat 4) ∧
      ((validate_treatment_recommendation resp q ets mie cc).1 = true ↔
        Frac.Le ⟨3, 4⟩ (fdiv r.1 (fracOfNat 4)))) ∧
    (∀ resp (q : String) (mt : Int) (me : Bool) (data : JObj),
      coerceToObj resp = .ok data →
      Frac.Le fzero (scoreTrial data mt me).1 ∧
      Frac.Le (scoreTrial data mt me).1 (fracOfNat 4) ∧
      ((validate_clinical_trial_match resp q mt me).1 = true ↔
        Frac.Le ⟨3, 4⟩ (fdiv (scoreTrial data mt me).1 (fracOfNat 4)))) := by
  refine ⟨?_, ?_, ?_⟩
  · intro resp q t ec mc mr data r hc hs
    obtain ⟨c1, c5, h1, h5, hr⟩ := scoreVariant_ok_elim _ _ _ _ _ _ hs
    have hb : Frac.Le fzero r.1 ∧ Frac.Le r.1 (fracOfNat 5) := by
      rw [hr]
      rcases variantTier_shape _ _ _ h1 with e1 | ⟨m1, e1⟩ <;>
        rcases variantCodes_shape data ec with e2 | ⟨m2, e2⟩ <;>
        rcases variantConfidence_shape data mc with e3 | ⟨m3, e3⟩ <;>
        rcases variantClinicalRec_shape data with e4 | ⟨m4, e4⟩ <;>
        rcases variantReferences_shape _ _ _ h5 with e5 | ⟨m5, e5⟩ <;>
        rw [e1, e2, e3, e4, e5] <;> dsimp only <;> exact ⟨by decide, by decide⟩
    refine ⟨hb.1, hb.2, ?_⟩
    rw [validate_variant_of_ok resp q t ec mc mr data r hc hs]
    simp [mkVerdict, fle]
  · intro resp q ets mie cc data r hc hs
    obtain ⟨c3, h3, hr⟩ := scoreTreatment_ok_elim _ _ _ _ _ hs
    have hb : Frac.Le fzero r.1 ∧ Frac.Le r.1 (fracOfNat 4) := by
      rw [hr]
      rcases treatTherapies_shape data ets with e1 | ⟨m1, e1⟩ <;>
        rcases treatEvidence_shape data mie with e2 | ⟨m2, e2⟩ <;>
        rcases treatContra_shape _ _ _ h3 with e3 | ⟨m3, e3⟩ <;>
        rcases treatDosing_shape data with e4 | ⟨m4, e4⟩ <;>
        rw [e1, e2, e3, e4] <;> dsimp only <;> exact ⟨by decide, by decide⟩
    refine ⟨hb.1, hb.2, ?_⟩
    rw [validate_treatment_of_ok resp q ets mie cc data r hc hs]
    simp [mkVerdict, fle]
  · intro resp q mt me data hc
    have hb : Frac.Le fzero (scoreTrial data mt me).1 ∧
        Frac.Le (scoreTrial data mt me).1 (fracOfNat 4) := by
      rw [scoreTrial_eq]
      rcases trialCount_shape data mt with e1 | ⟨m1, e1⟩ <;>
        rcases trialCompleteness_shape data mt with e2 | ⟨m2, e2⟩ <;>
        rcases trialEligibility_shape data me with e3 | ⟨m3, e3⟩ <;>
        rcases trialLocation_shape data with e4 | ⟨m4, e4⟩ <;>
        rw [e1, e2, e3, e4] <;> dsimp only <;> exact ⟨by decide, by decide⟩
    refine ⟨hb.1, hb.2, ?_⟩
    rw [validate_trial_of_ok resp q mt me data hc]
    simp [mkVerdict, fle]

/-- C2 witness: the invariant instantiated on the three concrete sample
responses. -/
theorem C2_score_bounds_witness :
    (Frac.Le fzero ⟨128, 32⟩ ∧ Frac.Le ⟨128, 32⟩ (fracOfNat 5) ∧
      ((validate_variant_classification (.bare (.value (.obj sampleVariantData))) "q"
        "pathogenic" ["PS1", "PM2"] ⟨4, 5⟩ true).1 = true ↔
        Frac.Le ⟨4, 5⟩ (fdiv ⟨128, 32⟩ (fracOfNat 5)))) ∧
    (Frac.Le fzero ⟨2500, 625⟩ ∧ Frac.Le ⟨2500, 625⟩ (fracOfNat 4) ∧
      ((validate_treatment_recommendation (.bare (.value (.obj sampleTreatData))) "q"
        ["osimertinib"] true true).1 = true ↔
        Frac.Le ⟨3, 4⟩ (fdiv ⟨2500, 625⟩ (fracOfNat 4)))) ∧
    (Frac.Le fzero ⟨30, 25⟩ ∧ Frac.Le ⟨30, 25⟩ (fracOfNat 4) ∧
      ((validate_clinical_trial_match (.bare (.value (.obj sampleTrialData))) "q" 3 true).1 =
        true ↔ Frac.Le ⟨3, 4⟩ (fdiv ⟨30, 25⟩ (fracOfNat 4)))) := by
  refine ⟨?_, ?_, ?_⟩
  · exact C2_score_bounds_and_threshold.1 (.bare (.value (.obj sampleVariantData))) "q"
      "pathogenic" ["PS1", "PM2"] ⟨4, 5⟩ true sampleVariantData
      (⟨128, 32⟩, true, ["Confidence too low: 0.5 < 0.8"]) rfl rfl
  · exact C2_score_bounds_and_threshold.2.1 (.bare (.value (.obj sampleTreatData))) "q"
      ["osimertinib"] true true sampleTreatData (⟨2500, 625⟩, true, []) rfl rfl
  · exact C2_score_bounds_and_threshold.2.2 (.bare (.value (.obj sampleTrialData))) "q" 3 true
      sampleTrialData rfl

/-- C3 (counterexample): on a malformed-JSON input the message is the
invalid-format error and does not state any score, maximum or percentage,
refuting the claim for "every input". -/
theorem C3_counterexample :
    (validate_variant_classification (.bare (.text "\x7bbad json")) "q" "pathogenic" ["PS1"]
      ⟨4, 5⟩ true).2 =
      "Invalid JSON response: Expecting property name enclosed in double quotes" ∧
    pyIn "Score" (validate_variant_classification (.bare (.text "\x7bbad json")) "q"
      "pathogenic" ["PS1"] ⟨4, 5⟩ true).2 = false := by decide

/-- C3 (amended): for every evaluator and every input that is coerced to a
mapping and scored without an internal exception, the returned message is
built by the single verdict constructor from the achieved score, the
maximum and the full issue list — so it states score, maximum and
percentage and enumerates every unmet criterion in one place — and that
issue list is the in-order concatenation of the per-criterion issue
lists, each empty or a single string. -/
theorem C3_message_structure :
    (∀ resp (q t : String) (ec : List String) (mc : Frac) (mr : Bool) (data : JObj) (r : Crit),
      coerceToObj resp = .ok data → scoreVariant data t ec mc mr = .ok r →
      validate_variant_classification resp q t ec mc mr =
        mkVerdict r.1 r.2.1 5 ⟨4, 5⟩ r.2.2 ∧
      ∃ c1 c5, variantTier data t = .ok c1 ∧ variantReferences data mr = .ok c5 ∧
        r.2.2 = c1.2.2 ++ (variantCodes data ec).2.2 ++ (variantConfidence data mc).2.2 ++
          (variantClinicalRec data).2.2 ++ c5.2.2 ∧
        c1.2.2.length ≤ 1 ∧ (variantCodes data ec).2.2.length ≤ 1 ∧
        (variantConfidence data mc).2.2.length ≤ 1 ∧
        (variantClinicalRec data).2.2.length ≤ 1 ∧ c5.2.2.length ≤ 1) ∧
    (∀ resp (q : String) (ets : List String) (mie cc : Bool) (data : JObj) (r : Crit),
      coerceToObj resp = .ok data → scoreTreatment data ets mie cc = .ok r →
      validate_treatment_recommendation resp q ets mie cc =
        mkVerdict r.1 r.2.1 4 ⟨3, 4⟩ r.2.2 ∧
      ∃ c3, treatContra data cc = .ok c3 ∧
        r.2.2 = (treatTherapies data ets).2.2 ++ (treatEvidence data mie).2.2 ++ c3.2.2 ++
          (treatDosing data).2.2 ∧
        (treatTherapies data ets).2.2.length ≤ 1 ∧ (treatEvidence data mie).2.2.length ≤ 1 ∧
        c3.2.2.length ≤ 1 ∧ (treatDosing data).2.2.length ≤ 1) ∧
    (∀ resp (q : String) (mt : Int) (me : Bool) (data : JObj),
      coerceToObj resp = .ok data →
      validate_clinical_trial_match resp q mt me =
        mkVerdict (scoreTrial data mt me).1 (scoreTrial data mt me).2.1 4 ⟨3, 4⟩
          (scoreTrial data mt me).2.2 ∧
      (scoreTrial data mt me).2.2 = (trialCount data mt).2.2 ++
        (trialCompleteness data mt).2.2 ++ (trialEligibility data me).2.2 ++
        (trialLocation data).2.2 ∧
      (trialCount data mt).2.2.length ≤ 1 ∧ (trialCompleteness data mt).2.2.length ≤ 1 ∧
      (trialEligibility data me).2.2.length ≤ 1 ∧ (trialLocation data).2.2.length ≤ 1) := by
  refine ⟨?_, ?_, ?_⟩
  · intro resp q t ec mc mr data r hc hs
    obtain ⟨c1, c5, h1, h5, hr⟩ := scoreVariant_ok_elim _ _ _ _ _ _ hs
    refine ⟨validate_variant_of_ok resp q t ec mc mr data r hc hs, c1, c5, h1, h5,
      by rw [hr], ?_, ?_, ?_, ?_, ?_⟩
    · rcases variantTier_shape _ _ _ h1 with e | ⟨m, e⟩ <;> simp [e]
    · rcases variantCodes_shape data ec with e | ⟨m, e⟩ <;> simp [e]
    · rcases variantConfidence_shape data mc with e | ⟨m, e⟩ <;> simp [e]
    · rcases variantClinicalRec_shape data with e | ⟨m, e⟩ <;> simp [e]
    · rcases variantReferences_shape _ _ _ h5 with e | ⟨m, e⟩ <;> simp [e]
  · intro resp q ets mie cc data r hc hs
    obtain ⟨c3, h3, hr⟩ := scoreTreatment_ok_elim _ _ _ _ _ hs
    refine ⟨validate_treatment_of_ok resp q ets mie cc data r hc hs, c3, h3,
      by rw [hr], ?_, ?_, ?_, ?_⟩
    · rcases treatTherapies_shape data ets with e | ⟨m, e⟩ <;> simp [e]
    · rcases treatEvidence_shape data mie with e | ⟨m, e⟩ <;> simp [e]
    · rcases treatContra_shape _ _ _ h3 with e | ⟨m, e⟩ <;> simp [e]
    · rcases treatDosing_shape data with e | ⟨m, e⟩ <;> simp [e]
  · intro resp q mt me data hc
    refine ⟨validate_trial_of_ok resp q mt me data hc, by rw [scoreTrial_eq], ?_, ?_, ?_, ?_⟩
    · rcases trialCount_shape data mt with e | ⟨m, e⟩ <;> simp [e]
    · rcases trialCompleteness_shape data mt with e | ⟨m, e⟩ <;> simp [e]
    · rcases trialEligibility_shape data me with e | ⟨m, e⟩ <;> simp [e]
    · rcases trialLocation_shape data with e | ⟨m, e⟩ <;> simp [e]

/-- C3 witness: the message-structure theorem instantiated on the three
concrete sample responses. -/
theorem C3_message_structure_witness :
    validate_variant_classification (.bare (.value (.obj sampleVariantData))) "q" "pathogenic"
      ["PS1", "PM2"] ⟨4, 5⟩ true =
      mkVerdict ⟨128, 32⟩ true 5 ⟨4, 5⟩ ["Confidence too low: 0.5 < 0.8"] ∧
    validate_treatment_recommendation (.bare (.value (.obj sampleTreatData))) "q"
      ["osimertinib"] true true = mkVerdict ⟨2500, 625⟩ true 4 ⟨3, 4⟩ [] ∧
    validate_clinical_trial_match (.bare (.value (.obj sampleTrialData))) "q" 3 true =
      mkVerdict ⟨30, 25⟩ true 4 ⟨3, 4⟩
        ["Expected at least 3 trials, found 1", "Only 1/1 trials have complete information"] := by
  refine ⟨?_, ?_, ?_⟩
  · exact (C3_message_structure.1 (.bare (.value (.obj sampleVariantData))) "q" "pathogenic"
      ["PS1", "PM2"] ⟨4, 5⟩ true sampleVariantData
      (⟨128, 32⟩, true, ["Confidence too low: 0.5 < 0.8"]) rfl rfl).1
  · exact (C3_message_structure.2.1 (.bare (.value (.obj sampleTreatData))) "q" ["osimertinib"]
      true true sampleTreatData (⟨2500, 625⟩, true, []) rfl rfl).1
  · exact (C3_message_structure.2.2 (.bare (.value (.obj sampleTrialData))) "q" 3 true
      sampleTrialData rfl).1

/-- C4: for every evaluator, when the unwrapped response is a string that
fails JSON parsing, the evaluator returns pass = false with the
invalid-format message built only from the parse error — no partial
scoring reaches the output. -/
theorem C4_malformed_json :
    ∀ resp (q s e t : String) (ec : List String) (mc : Frac) (mr : Bool)
      (ets : List String) (mie cc : Bool) (mt : Int) (me : Bool),
      extract resp = .text s → jsonParse s = .error e →
      validate_variant_classification resp q t ec mc mr =
        (false, "Invalid JSON response: " ++ e) ∧
      validate_treatment_recommendation resp q ets mie cc =
        (false, "Invalid JSON response: " ++ e) ∧
      validate_clinical_trial_match resp q mt me = (false, "Invalid JSON response: " ++ e) := by
  intro resp q s e t ec mc mr ets mie cc mt me hx hj
  have hco : coerceToObj resp = .error (.jsonDecode e) := by
    simp [coerceToObj, hx, hj]
  exact ⟨by simp [validate_variant_classification, variantPipeline, hco],
    by simp [validate_treatment_recommendation, treatmentPipeline, hco],
    by simp [validate_clinical_trial_match, trialPipeline, hco]⟩

/-- C4 witness: all three evaluators on the literal text starting with an
open brace followed by `bad json`. -/
theorem C4_malformed_json_witness :
    validate_variant_classification (.bare (.text "\x7bbad json")) "q" "x" [] fzero true =
      (false, "Invalid JSON response: Expecting property name enclosed in double quotes") ∧
    validate_treatment_recommendation (.bare (.text "\x7bbad json")) "q" [] true true =
      (false, "Invalid JSON response: Expecting property name enclosed in double quotes") ∧
    validate_clinical_trial_match (.bare (.text "\x7bbad json")) "q" 3 true =
      (false, "Invalid JSON response: Expecting property name enclosed in double quotes") :=
  C4_malformed_json (.bare (.text "\x7bbad json")) "q" "\x7bbad json"
    "Expecting property name enclosed in double quotes" "x" [] fzero true [] true true 3 true
    rfl rfl

/-- C5: each evaluator is a total function into pairs; a scoring
exception other than a JSON decode error surfaces as pass = false with
the message `Evaluation error:` followed by the exception description,
never as a raised exception. -/
theorem C5_exceptions_become_failed_verdicts :
    ∀ resp (q m t : String) (ec : List String) (mc : Frac) (mr : Bool)
      (ets : List String) (mie cc : Bool) (mt : Int) (me : Bool),
      (variantPipeline resp t ec mc mr = .error (.exc m) →
        validate_variant_classification resp q t ec mc mr =
          (false, "Evaluation error: " ++ m)) ∧
      (treatmentPipeline resp ets mie cc = .error (.exc m) →
        validate_treatment_recommendation resp q ets mie cc =
          (false, "Evaluation error: " ++ m)) ∧
      (trialPipeline resp mt me = .error (.exc m) →
        validate_clinical_trial_match resp q mt me = (false, "Evaluation error: " ++ m)) ∧
      (∃ b msg, validate_variant_classification resp q t ec mc mr = (b, msg)) ∧
      (∃ b msg, validate_treatment_recommendation resp q ets mie cc = (b, msg)) ∧
      (∃ b msg, validate_clinical_trial_match resp q mt me = (b, msg)) := by
  intro resp q m t ec mc mr ets mie cc mt me
  refine ⟨fun h => by simp [validate_variant_classification, h],
    fun h => by simp [validate_treatment_recommendation, h],
    fun h => by simp [validate_clinical_trial_match, h],
    ⟨_, _, rfl⟩, ⟨_, _, rfl⟩, ⟨_, _, rfl⟩⟩

/-- C5 witness: a structured non-mapping response (a list) makes every
evaluator return the caught `AttributeError` as a failed verdict. -/
theorem C5_exceptions_witness :
    validate_variant_classification (.bare (.value (.arr []))) "q" "x" [] fzero true =
      (false, "Evaluation error: \x27list\x27 object has no attribute \x27get\x27") ∧
    validate_treatment_recommendation (.bare (.value (.arr []))) "q" [] true true =
      (false, "Evaluation error: \x27list\x27 object has no attribute \x27get\x27") ∧
    validate_clinical_trial_match (.bare (.value (.arr []))) "q" 3 true =
      (false, "Evaluation error: \x27list\x27 object has no attribute \x27get\x27") := by
  have T := C5_exceptions_become_failed_verdicts (.bare (.value (.arr []))) "q"
    "\x27list\x27 object has no attribute \x27get\x27" "x" [] fzero true [] true true 3 true
  exact ⟨T.1 rfl, T.2.1 rfl, T.2.2.1 rfl⟩

/-- C6 (counterexample): with `min_confidence = 0.0` and a response with
no confidence field, the confidence criterion awards its full point and
reports no issue — the missing field defaults to 0, which meets the
threshold — refuting "missing confidence is a failed criterion" for
every `min_confidence`. -/
theorem C6_counterexample :
    variantConfidence [] fzero = (⟨1, 1⟩, false, []) := by decide

/-- C6 (amended): the confidence criterion awards its 1.0 point exactly
when the confidence value — the reported one, or the default 0 when the
field is missing — converts to a float that compares at least
`min_confidence` (NaN compares false, infinity true); a non-convertible
confidence yields the invalid-value issue and zero points; and a failing
confidence criterion never aborts the evaluation — the full issue list
still contains every other criterion's issues. -/
theorem C6_confidence_criterion :
    ∀ (data : JObj) (mc : Frac),
      ((variantConfidence data mc).1 = ⟨1, 1⟩ ↔
        ∃ v, pyFloatOpt (jGet data "confidence" (.num (.fin ⟨0, 1⟩))) = some v ∧
          pyGe v mc = true) ∧
      (pyFloatOpt (jGet data "confidence" (.num (.fin ⟨0, 1⟩))) = none →
        variantConfidence data mc = (fzero, false,
          ["Invalid confidence value: " ++
            pyStr (jGet data "confidence" (.num (.fin ⟨0, 1⟩)))])) ∧
      (∀ (t : String) (ec : List String) (mr : Bool) (r : Crit),
        scoreVariant data t ec mc mr = .ok r →
        ∃ c1 c5, variantTier data t = .ok c1 ∧ variantReferences data mr = .ok c5 ∧
          r.2.2 = c1.2.2 ++ (variantCodes data ec).2.2 ++ (variantConfidence data mc).2.2 ++
            (variantClinicalRec data).2.2 ++ c5.2.2) := by
  intro data mc
  refine ⟨?_, ?_, ?_⟩
  · unfold variantConfidence
    dsimp only
    cases hp : pyFloatOpt (jGet data "confidence" (.num (.fin ⟨0, 1⟩))) with
    | none => simp [fzero]
    | some v =>
      rw [critOf_fst_eq_iff _ _ _ _ (by decide)]
      simp [fle]
  · intro hp
    unfold variantConfidence
    dsimp only
    rw [hp]
  · intro t ec mr r hs
    obtain ⟨c1, c5, h1, h5, hr⟩ := scoreVariant_ok_elim _ _ _ _ _ _ hs
    exact ⟨c1, c5, h1, h5, by rw [hr]⟩

/-- C6 witness: a `null` confidence is non-numeric, yields the
invalid-value issue with zero points, and the other criteria are still
scored in the same run. -/
theorem C6_confidence_witness :
    variantConfidence [("confidence", JValue.null)] ⟨4, 5⟩ =
      (fzero, false, ["Invalid confidence value: None"]) ∧
    (∃ c1 c5, variantTier [("confidence", JValue.null)] "x" = .ok c1 ∧
      variantReferences [("confidence", JValue.null)] false = .ok c5 ∧
      (["Invalid confidence value: None",
        "Clinical recommendation missing or too brief"] : List String) =
        c1.2.2 ++ (variantCodes [("confidence", JValue.null)] []).2.2 ++
          (variantConfidence [("confidence", JValue.null)] ⟨4, 5⟩).2.2 ++
          (variantClinicalRec [("confidence", JValue.null)]).2.2 ++ c5.2.2) :=
  ⟨(C6_confidence_criterion [("confidence", JValue.null)] ⟨4, 5⟩).2.1 rfl,
    (C6_confidence_criterion [("confidence", JValue.null)] ⟨4, 5⟩).2.2 "x" [] false
      (⟨26, 8⟩, true, ["Invalid confidence value: None",
        "Clinical recommendation missing or too brief"]) rfl⟩

/-- C7: the trial-completeness criterion awards its full 1.6 points
exactly when the number of complete trial entries reaches 0.7 times the
`min_trials` parameter — the comparison is against the minimum trial
count, not against the number of reported trials. -/
theorem C7_completeness_vs_min_trials :
    ∀ (data : JObj) (min_trials : Int),
      (trialCompleteness data min_trials).1 = ⟨8, 5⟩ ↔
        Frac.Le (fmul (fracOfInt min_trials) ⟨7, 10⟩)
          (fracOfNat ((trialsOf data).filter isCompleteTrial).length) := by
  intro data mt
  unfold trialCompleteness
  dsimp only
  rw [critOf_fst_eq_iff _ _ _ _ (by decide)]
  simp [fle]

/-- C8: every evaluator is a pure function of its arguments, so calling
it twice with identical inputs yields the identical (pass, message)
pair. -/
theorem C8_deterministic :
    ∀ resp (q t : String) (ec : List String) (mc : Frac) (mr : Bool) (ets : List String)
      (mie cc : Bool) (mt : Int) (me : Bool),
      validate_variant_classification resp q t ec mc mr =
        validate_variant_classification resp q t ec mc mr ∧
      validate_treatment_recommendation resp q ets mie cc =
        validate_treatment_recommendation resp q ets mie cc ∧
      validate_clinical_trial_match resp q mt me =
        validate_clinical_trial_match resp q mt me :=
  fun _ _ _ _ _ _ _ _ _ _ _ => ⟨rfl, rfl, rfl⟩

/-- C9: for every non-empty expected tier, a response whose pathogenicity
field is missing or empty gets the full 1.0 tier point with no issue:
the field defaults to the empty string, which is a substring of the
lowercased expected tier, so the two-way substring test succeeds. -/
theorem C9_blank_pathogenicity_gets_tier_point :
    ∀ (data : JObj) (expected_tier : String),
      expected_tier ≠ "" →
      jGet data "pathogenicity" (.str "") = .str "" →
      variantTier data expected_tier = .ok (⟨1, 1⟩, false, []) := by
  intro data t _ht h
  unfold variantTier
  rw [h]
  have hs0 : strLower "" = "" := rfl
  simp only [pyLower, hs0]
  rw [pyIn_empty (strLower t), Bool.or_true]
  rfl

/-- C9 witness: the empty mapping with expected tier `pathogenic`. -/
theorem C9_blank_pathogenicity_witness :
    ("pathogenic" ≠ "") ∧ jGet ([] : JObj) "pathogenicity" (.str "") = .str "" ∧
    variantTier [] "pathogenic" = .ok (⟨1, 1⟩, false, []) :=
  ⟨by decide, rfl, C9_blank_pathogenicity_gets_tier_point [] "pathogenic" (by decide) rfl⟩

/-- C10: with an empty expected list the matched-fraction criteria grant
full credit vacuously, for every response: empty expected evidence codes
always award the full 1.5 points, and empty expected therapies always
award the full 1.6 points, with no issue. -/
theorem C10_empty_expected_full_credit :
    ∀ data : JObj,
      variantCodes data [] = (⟨3, 2⟩, true, []) ∧
      treatTherapies data [] = (⟨8, 5⟩, true, []) :=
  fun _ => ⟨rfl, rfl⟩
